import Mathlib

/-!
Verification of the butterfly-flock sample (Tutorial03_Texturing).

The development shallowly embeds the kinematic model, the per-frame
instance regeneration, the draw loop and the articulation vertex shader
of src/src/Tutorial03_Texturing.cpp and src/assets/cube.vsh.  Machine
floats are modelled by real numbers; the trigonometric functions of the
C runtime are modelled by Real.sin / Real.cos.
-/

open Real

namespace Butterflies

/-- 3-component vector, mirroring Diligent float3. -/
structure Vec3 where
  x : ℝ
  y : ℝ
  z : ℝ

namespace Vec3

/-- Componentwise negation, mirroring operator- of float3. -/
def neg (v : Vec3) : Vec3 := ⟨-v.x, -v.y, -v.z⟩

/-- Dot product of float3, as in BasicMath dot. -/
def dot (a b : Vec3) : ℝ := a.x * b.x + a.y * b.y + a.z * b.z

/-- Cross product of float3, as in BasicMath cross. -/
def cross (a b : Vec3) : Vec3 :=
  ⟨a.y * b.z - a.z * b.y, a.z * b.x - a.x * b.z, a.x * b.y - a.y * b.x⟩

/-- Euclidean length of a float3. -/
noncomputable def length (v : Vec3) : ℝ := Real.sqrt (dot v v)

/-- BasicMath normalize: divide each component by the length. -/
noncomputable def normalize (v : Vec3) : Vec3 :=
  ⟨v.x / length v, v.y / length v, v.z / length v⟩

end Vec3

/-- Row-major 4x4 matrix, mirroring Diligent float4x4.  Field mRC is the
entry in row R, column C. -/
structure Mat4 where
  m00 : ℝ
  m01 : ℝ
  m02 : ℝ
  m03 : ℝ
  m10 : ℝ
  m11 : ℝ
  m12 : ℝ
  m13 : ℝ
  m20 : ℝ
  m21 : ℝ
  m22 : ℝ
  m23 : ℝ
  m30 : ℝ
  m31 : ℝ
  m32 : ℝ
  m33 : ℝ

/-- The all-zero matrix (used only as a getD default). -/
def mat4Zero : Mat4 := ⟨0, 0, 0, 0, 0, 0, 0, 0, 0, 0, 0, 0, 0, 0, 0, 0⟩

namespace Mat4

/-- Standard matrix product, as BasicMath float4x4 multiplication:
entry (i,j) of A*B is the dot product of row i of A with column j of B. -/
def mul (A B : Mat4) : Mat4 :=
  ⟨A.m00 * B.m00 + A.m01 * B.m10 + A.m02 * B.m20 + A.m03 * B.m30,
   A.m00 * B.m01 + A.m01 * B.m11 + A.m02 * B.m21 + A.m03 * B.m31,
   A.m00 * B.m02 + A.m01 * B.m12 + A.m02 * B.m22 + A.m03 * B.m32,
   A.m00 * B.m03 + A.m01 * B.m13 + A.m02 * B.m23 + A.m03 * B.m33,
   A.m10 * B.m00 + A.m11 * B.m10 + A.m12 * B.m20 + A.m13 * B.m30,
   A.m10 * B.m01 + A.m11 * B.m11 + A.m12 * B.m21 + A.m13 * B.m31,
   A.m10 * B.m02 + A.m11 * B.m12 + A.m12 * B.m22 + A.m13 * B.m32,
   A.m10 * B.m03 + A.m11 * B.m13 + A.m12 * B.m23 + A.m13 * B.m33,
   A.m20 * B.m00 + A.m21 * B.m10 + A.m22 * B.m20 + A.m23 * B.m30,
   A.m20 * B.m01 + A.m21 * B.m11 + A.m22 * B.m21 + A.m23 * B.m31,
   A.m20 * B.m02 + A.m21 * B.m12 + A.m22 * B.m22 + A.m23 * B.m32,
   A.m20 * B.m03 + A.m21 * B.m13 + A.m22 * B.m23 + A.m23 * B.m33,
   A.m30 * B.m00 + A.m31 * B.m10 + A.m32 * B.m20 + A.m33 * B.m30,
   A.m30 * B.m01 + A.m31 * B.m11 + A.m32 * B.m21 + A.m33 * B.m31,
   A.m30 * B.m02 + A.m31 * B.m12 + A.m32 * B.m22 + A.m33 * B.m32,
   A.m30 * B.m03 + A.m31 * B.m13 + A.m32 * B.m23 + A.m33 * B.m33⟩

/-- Column 0 of the upper-left 3x3 rotation block. -/
def column0 (M : Mat4) : Vec3 := ⟨M.m00, M.m10, M.m20⟩

/-- Column 1 of the upper-left 3x3 rotation block. -/
def column1 (M : Mat4) : Vec3 := ⟨M.m01, M.m11, M.m21⟩

/-- Column 2 of the upper-left 3x3 rotation block. -/
def column2 (M : Mat4) : Vec3 := ⟨M.m02, M.m12, M.m22⟩

/-- Determinant of the upper-left 3x3 rotation block (cofactor expansion
along the first row). -/
def det3 (M : Mat4) : ℝ :=
  M.m00 * (M.m11 * M.m22 - M.m12 * M.m21) -
    M.m01 * (M.m10 * M.m22 - M.m12 * M.m20) +
    M.m02 * (M.m10 * M.m21 - M.m11 * M.m20)

end Mat4

/-! Animation constants from Tutorial03_Texturing.hpp. -/

/-- Circle radius (kRadius = 6.0f). -/
def kRadius : ℝ := 6.0

/-- Orbit angular speed in radians per second (kSpeed = 0.75f). -/
def kSpeed : ℝ := 0.75

/-- Vertical bob amplitude (kBobAmp = 0.25f). -/
def kBobAmp : ℝ := 0.25

/-- Vertical bob frequency in Hz (kBobFreq = 0.80f). -/
def kBobFreq : ℝ := 0.80

/-- Wing flaps per bob (kWingFactor = 6.0f). -/
def kWingFactor : ℝ := 6.0

/-- Wing flap amplitude in radians (kWingAmp = 0.60f). -/
def kWingAmp : ℝ := 0.60

/-- Per-frame vertical bob offset, computed once per frame in
GenerateInstanceData: bobPhase = Time * kBobFreq * 2 * PI and
bobOffset = kBobAmp * (0.6 * sin(bobPhase) + 0.4 * sin(bobPhase * 2.3)). -/
noncomputable def bobOffset (Time : ℝ) : ℝ :=
  kBobAmp * (0.6 * Real.sin (Time * kBobFreq * 2.0 * π) +
    0.4 * Real.sin (Time * kBobFreq * 2.0 * π * 2.3))

/-- Tutorial03_Texturing::MakeWorld: build an orthonormal basis by
Gram-Schmidt from (Forward, Up) and pack it into a row-major matrix whose
last row is the translation. -/
noncomputable def MakeWorld (Pos Forward Up : Vec3) : Mat4 :=
  let Z := Vec3.normalize (Vec3.neg Forward)
  let X := Vec3.normalize (Vec3.cross Up Z)
  let Y := Vec3.cross Z X
  ⟨X.x, Y.x, Z.x, 0,
   X.y, Y.y, Z.y, 0,
   X.z, Y.z, Z.z, 0,
   Pos.x, Pos.y, Pos.z, 1⟩

/-- The world matrix built for one instance in the loop body of
Tutorial03_Texturing::GenerateInstanceData: orbit angle
theta = phase + Time * kSpeed, position = center + (kRadius*cos theta,
bobOffset, kRadius*sin theta), forward tangent to the circle, world-up
reference. -/
noncomputable def instanceWorld (center : Vec3) (phase Time : ℝ) : Mat4 :=
  let theta := phase + Time * kSpeed
  let x := center.x + kRadius * Real.cos theta
  let y := center.y + bobOffset Time
  let z := center.z + kRadius * Real.sin theta
  let forward := Vec3.normalize ⟨-kRadius * Real.sin theta, 0, kRadius * Real.cos theta⟩
  MakeWorld ⟨x, y, z⟩ forward ⟨0, 1, 0⟩

/-! Helper lemmas evaluating the Gram-Schmidt basis on the orbit data. -/

/-- A vector of unit dot-square normalizes to itself. -/
lemma normalize_of_dot_eq_one (v : Vec3) (h : Vec3.dot v v = 1) :
    Vec3.normalize v = v := by
  cases v with
  | mk vx vy vz =>
    simp only [Vec3.normalize, Vec3.length, h, Real.sqrt_one]
    simp

/-- Normalizing the orbit tangent scaled by a positive radius R yields the
unit tangent. -/
lemma normalize_orbit_tangent (R s c : ℝ) (hR : 0 < R) (h : s ^ 2 + c ^ 2 = 1) :
    Vec3.normalize ⟨-R * s, 0, R * c⟩ = ⟨-s, 0, c⟩ := by
  have hdot : Vec3.dot ⟨-R * s, 0, R * c⟩ ⟨-R * s, 0, R * c⟩ = R ^ 2 := by
    have : -R * s * (-R * s) + 0 * 0 + R * c * (R * c) = R ^ 2 * (s ^ 2 + c ^ 2) := by
      ring
    simp only [Vec3.dot, this, h, mul_one]
  have hlen : Vec3.length ⟨-R * s, 0, R * c⟩ = R := by
    simp only [Vec3.length, hdot]
    exact Real.sqrt_sq hR.le
  have hR' : R ≠ 0 := ne_of_gt hR
  simp only [Vec3.normalize, hlen, Vec3.mk.injEq]
  refine ⟨by field_simp; ring, by simp, by field_simp⟩

/-- Evaluation of MakeWorld on the orbit frame: with forward the unit
tangent (-s, 0, c) and up the world up, the Gram-Schmidt basis is
X = (-c, 0, -s), Y = (0, 1, 0), Z = (s, 0, -c). -/
lemma MakeWorld_orbit (P : Vec3) (s c : ℝ) (h : s ^ 2 + c ^ 2 = 1) :
    MakeWorld P ⟨-s, 0, c⟩ ⟨0, 1, 0⟩ =
      ⟨-c, 0, s, 0,
       0, 1, 0, 0,
       -s, 0, -c, 0,
       P.x, P.y, P.z, 1⟩ := by
  have hneg : Vec3.neg ⟨-s, 0, c⟩ = ⟨s, 0, -c⟩ := by
    simp [Vec3.neg]
  have hZ : Vec3.normalize ⟨s, 0, -c⟩ = ⟨s, 0, -c⟩ := by
    apply normalize_of_dot_eq_one
    simp only [Vec3.dot]
    nlinarith [h]
  have hcrossUZ : Vec3.cross ⟨0, 1, 0⟩ ⟨s, 0, -c⟩ = ⟨-c, 0, -s⟩ := by
    simp [Vec3.cross]
  have hX : Vec3.normalize ⟨-c, 0, -s⟩ = ⟨-c, 0, -s⟩ := by
    apply normalize_of_dot_eq_one
    simp only [Vec3.dot]
    nlinarith [h]
  have hY : Vec3.cross ⟨s, 0, -c⟩ ⟨-c, 0, -s⟩ = ⟨0, 1, 0⟩ := by
    simp only [Vec3.cross, Vec3.mk.injEq]
    refine ⟨by ring, by nlinarith [h], by ring⟩
  simp only [MakeWorld, hneg, hZ, hcrossUZ, hX, hY]

/-- Closed form of the instance world matrix: writing s, c for the sine
and cosine of the orbit angle, the rotation block has columns
X = (-c, 0, -s), Y = (0, 1, 0), Z = (s, 0, -c) and the last row is the
orbital position. -/
lemma instanceWorld_eq (center : Vec3) (phase Time : ℝ) :
    instanceWorld center phase Time =
      ⟨-Real.cos (phase + Time * kSpeed), 0, Real.sin (phase + Time * kSpeed), 0,
       0, 1, 0, 0,
       -Real.sin (phase + Time * kSpeed), 0, -Real.cos (phase + Time * kSpeed), 0,
       center.x + kRadius * Real.cos (phase + Time * kSpeed),
       center.y + bobOffset Time,
       center.z + kRadius * Real.sin (phase + Time * kSpeed), 1⟩ := by
  have hsc : Real.sin (phase + Time * kSpeed) ^ 2 +
      Real.cos (phase + Time * kSpeed) ^ 2 = 1 :=
    Real.sin_sq_add_cos_sq _
  have hfwd : Vec3.normalize
      ⟨-kRadius * Real.sin (phase + Time * kSpeed), 0,
        kRadius * Real.cos (phase + Time * kSpeed)⟩ =
      ⟨-Real.sin (phase + Time * kSpeed), 0, Real.cos (phase + Time * kSpeed)⟩ := by
    apply normalize_orbit_tangent
    · norm_num [kRadius]
    · exact hsc
  simp only [instanceWorld, hfwd]
  exact MakeWorld_orbit _ _ _ hsc

/-- The mutable sample state relevant to the instance pool: the configured
instance count, the immutable seeds (m_InstanceCenters, m_InstancePhases),
the derived per-frame worlds (m_InstanceWorlds), the accumulated animation
clock (m_PathTime) and the combined camera matrix (m_WorldViewProj). -/
structure SceneState where
  instanceCount : ℕ
  instanceCenters : List Vec3
  instancePhases : List ℝ
  instanceWorlds : List Mat4
  pathTime : ℝ
  worldViewProj : Mat4

/-- Tutorial03_Texturing::InitInstanceData: clear the seed containers and
push one randomly sampled center and phase per instance, for
i = 0 .. m_InstanceCount - 1.  The random number generator is modelled as
the streams of values it produces. -/
def InitInstanceData (sampleCenter : ℕ → Vec3) (samplePhase : ℕ → ℝ)
    (s : SceneState) : SceneState :=
  { s with
    instanceCenters := (List.range s.instanceCount).map sampleCenter
    instancePhases := (List.range s.instanceCount).map samplePhase }

/-- Tutorial03_Texturing::GenerateInstanceData: clear m_InstanceWorlds and
rebuild it from the stored seeds, one world matrix per instance index
i = 0 .. m_InstanceCount - 1. -/
noncomputable def GenerateInstanceData (s : SceneState) (Time : ℝ) : SceneState :=
  { s with
    instanceWorlds := (List.range s.instanceCount).map fun i =>
      instanceWorld (s.instanceCenters.getD i ⟨0, 0, 0⟩)
        (s.instancePhases.getD i 0) Time }

/-- Tutorial03_Texturing::Update: accumulate the elapsed time into
m_PathTime, regenerate the instance worlds from the accumulated clock, and
store the camera view-projection for the frame (the camera product
view * surfacePretransform * proj is an external input here). -/
noncomputable def Update (ElapsedTime : ℝ) (viewProj : Mat4) (s : SceneState) :
    SceneState :=
  let s1 := { s with pathTime := s.pathTime + ElapsedTime }
  let s2 := GenerateInstanceData s1 s1.pathTime
  { s2 with worldViewProj := viewProj }

/-- A sequence of frames: fold Update over the per-frame
(elapsed time, camera matrix) inputs. -/
noncomputable def runUpdates (frames : List (ℝ × Mat4)) (s : SceneState) :
    SceneState :=
  frames.foldl (fun st f => Update f.1 f.2 st) s

/-- The constant record written through the dynamic VS constant buffer for
each instance draw (struct VSConstants). -/
structure VSConstants where
  WorldViewProj : Mat4
  WingAngle : ℝ

/-- One recorded instance draw of DrawButterflies: the constants written
just before the draw and the index count passed to DrawIndexed. -/
structure DrawRecord where
  constants : VSConstants
  numIndices : ℕ

/-- Default draw record (used only as a getD default). -/
def drawRecordZero : DrawRecord := ⟨⟨mat4Zero, 0⟩, 0⟩

/-- The wing flap angle computed once per frame at the top of
DrawButterflies: sin(m_PathTime * 2 * PI * kWingFactor) * kWingAmp. -/
noncomputable def wingAng (pathTime : ℝ) : ℝ :=
  Real.sin (pathTime * 2.0 * π * kWingFactor) * kWingAmp

/-- Tutorial03_Texturing::DrawButterflies: loop over m_InstanceWorlds in
order; for instance i write WorldViewProj = m_InstanceWorlds[i] *
m_WorldViewProj and the shared wing angle, then issue one indexed draw of
the butterfly index count. -/
noncomputable def DrawButterflies (indexCount : ℕ) (s : SceneState) :
    List DrawRecord :=
  s.instanceWorlds.map fun w =>
    { constants := { WorldViewProj := Mat4.mul w s.worldViewProj
                     WingAngle := wingAng s.pathTime }
      numIndices := indexCount }

/-- C8: for every time t the vertical bob offset lies in the closed
interval [-kBobAmp, kBobAmp]. -/
theorem bobOffset_bounded (t : ℝ) :
    -kBobAmp ≤ bobOffset t ∧ bobOffset t ≤ kBobAmp := by
  have h1 := Real.neg_one_le_sin (t * kBobFreq * 2.0 * π)
  have h2 := Real.sin_le_one (t * kBobFreq * 2.0 * π)
  have h3 := Real.neg_one_le_sin (t * kBobFreq * 2.0 * π * 2.3)
  have h4 := Real.sin_le_one (t * kBobFreq * 2.0 * π * 2.3)
  constructor
  · simp only [bobOffset, kBobAmp]
    nlinarith
  · simp only [bobOffset, kBobAmp]
    nlinarith

/-- Reading the regenerated world list at an in-range index yields the
world matrix of that instance's seed. -/
lemma GenerateInstanceData_getD (s : SceneState) (t : ℝ) (i : ℕ)
    (h : i < s.instanceCount) :
    (GenerateInstanceData s t).instanceWorlds.getD i mat4Zero =
      instanceWorld (s.instanceCenters.getD i ⟨0, 0, 0⟩)
        (s.instancePhases.getD i 0) t := by
  simp only [GenerateInstanceData]
  rw [List.getD_eq_getElem _ _ (by simpa using h)]
  simp

/-- C1: the per-frame regeneration places instance i at world position
center + (kRadius * cos theta, bob(t), kRadius * sin theta) with
theta = phase + t * kSpeed and bob(t) = kBobAmp * (0.6 * sin(phi) +
0.4 * sin(2.3 * phi)), phi = t * kBobFreq * 2 * pi; the bob term is the
same for every seed of the frame (it equals bobOffset t, a function of
the time alone). -/
theorem generate_places_instances (s : SceneState) (t : ℝ) (i : ℕ)
    (h : i < s.instanceCount) :
    ((GenerateInstanceData s t).instanceWorlds.getD i mat4Zero).m30 =
      (s.instanceCenters.getD i ⟨0, 0, 0⟩).x +
        kRadius * Real.cos (s.instancePhases.getD i 0 + t * kSpeed) ∧
    ((GenerateInstanceData s t).instanceWorlds.getD i mat4Zero).m31 =
      (s.instanceCenters.getD i ⟨0, 0, 0⟩).y +
        kBobAmp * (0.6 * Real.sin (t * kBobFreq * (2 * π)) +
          0.4 * Real.sin (2.3 * (t * kBobFreq * (2 * π)))) ∧
    ((GenerateInstanceData s t).instanceWorlds.getD i mat4Zero).m32 =
      (s.instanceCenters.getD i ⟨0, 0, 0⟩).z +
        kRadius * Real.sin (s.instancePhases.getD i 0 + t * kSpeed) ∧
    ((GenerateInstanceData s t).instanceWorlds.getD i mat4Zero).m31 -
        (s.instanceCenters.getD i ⟨0, 0, 0⟩).y = bobOffset t := by
  rw [GenerateInstanceData_getD s t i h, instanceWorld_eq]
  have e2 : t * kBobFreq * 2.0 * π * 2.3 = 2.3 * (t * kBobFreq * (2 * π)) := by
    ring
  have e1 : t * kBobFreq * 2.0 * π = t * kBobFreq * (2 * π) := by ring
  refine ⟨rfl, ?_, rfl, by ring⟩
  simp only [bobOffset]
  rw [e2, e1]

/-- Witness for C1 at a concrete one-instance state and t = 0. -/
def witnessState : SceneState :=
  { instanceCount := 1
    instanceCenters := [⟨0, 0, 0⟩]
    instancePhases := [0]
    instanceWorlds := []
    pathTime := 0
    worldViewProj := mat4Zero }

theorem generate_places_instances_witness :
    ((GenerateInstanceData witnessState 0).instanceWorlds.getD 0 mat4Zero).m30 =
      (witnessState.instanceCenters.getD 0 ⟨0, 0, 0⟩).x +
        kRadius * Real.cos (witnessState.instancePhases.getD 0 0 + 0 * kSpeed) ∧
    ((GenerateInstanceData witnessState 0).instanceWorlds.getD 0 mat4Zero).m31 =
      (witnessState.instanceCenters.getD 0 ⟨0, 0, 0⟩).y +
        kBobAmp * (0.6 * Real.sin (0 * kBobFreq * (2 * π)) +
          0.4 * Real.sin (2.3 * (0 * kBobFreq * (2 * π)))) ∧
    ((GenerateInstanceData witnessState 0).instanceWorlds.getD 0 mat4Zero).m32 =
      (witnessState.instanceCenters.getD 0 ⟨0, 0, 0⟩).z +
        kRadius * Real.sin (witnessState.instancePhases.getD 0 0 + 0 * kSpeed) ∧
    ((GenerateInstanceData witnessState 0).instanceWorlds.getD 0 mat4Zero).m31 -
        (witnessState.instanceCenters.getD 0 ⟨0, 0, 0⟩).y = bobOffset 0 :=
  generate_places_instances witnessState 0 0 (by norm_num [witnessState])

/-- C3: for every seed and time the instance world matrix is a rigid
transform: the 3x3 rotation block has unit-length, mutually perpendicular
columns and determinant +1, the fourth column is (0, 0, 0, 1), and the
fourth row is the translation. -/
theorem instanceWorld_rigid (center : Vec3) (phase t : ℝ) :
    (Vec3.dot (Mat4.column0 (instanceWorld center phase t))
        (Mat4.column0 (instanceWorld center phase t)) = 1 ∧
      Vec3.dot (Mat4.column1 (instanceWorld center phase t))
        (Mat4.column1 (instanceWorld center phase t)) = 1 ∧
      Vec3.dot (Mat4.column2 (instanceWorld center phase t))
        (Mat4.column2 (instanceWorld center phase t)) = 1) ∧
    (Vec3.dot (Mat4.column0 (instanceWorld center phase t))
        (Mat4.column1 (instanceWorld center phase t)) = 0 ∧
      Vec3.dot (Mat4.column0 (instanceWorld center phase t))
        (Mat4.column2 (instanceWorld center phase t)) = 0 ∧
      Vec3.dot (Mat4.column1 (instanceWorld center phase t))
        (Mat4.column2 (instanceWorld center phase t)) = 0) ∧
    Mat4.det3 (instanceWorld center phase t) = 1 ∧
    ((instanceWorld center phase t).m03 = 0 ∧
      (instanceWorld center phase t).m13 = 0 ∧
      (instanceWorld center phase t).m23 = 0 ∧
      (instanceWorld center phase t).m33 = 1) ∧
    ((instanceWorld center phase t).m30 =
        center.x + kRadius * Real.cos (phase + t * kSpeed) ∧
      (instanceWorld center phase t).m31 = center.y + bobOffset t ∧
      (instanceWorld center phase t).m32 =
        center.z + kRadius * Real.sin (phase + t * kSpeed)) := by
  have h := Real.sin_sq_add_cos_sq (phase + t * kSpeed)
  rw [instanceWorld_eq]
  refine ⟨⟨?_, ?_, ?_⟩, ⟨?_, ?_, ?_⟩, ?_, ⟨rfl, rfl, rfl, rfl⟩, rfl, rfl, rfl⟩ <;>
    simp only [Mat4.column0, Mat4.column1, Mat4.column2, Mat4.det3, Vec3.dot] <;>
    nlinarith [h]

/-- C7: the horizontal (x, z) translation of the instance world matrix is
periodic in time with period 2 * pi / kSpeed. -/
theorem orbit_periodic (center : Vec3) (phase t : ℝ) :
    (instanceWorld center phase (t + 2 * π / kSpeed)).m30 =
      (instanceWorld center phase t).m30 ∧
    (instanceWorld center phase (t + 2 * π / kSpeed)).m32 =
      (instanceWorld center phase t).m32 := by
  rw [instanceWorld_eq, instanceWorld_eq]
  have e : phase + (t + 2 * π / kSpeed) * kSpeed = phase + t * kSpeed + 2 * π := by
    simp only [kSpeed]
    ring
  rw [e, Real.cos_add_two_pi, Real.sin_add_two_pi]
  exact ⟨rfl, rfl⟩

/-- C9: initialization creates exactly N seeds; regeneration produces a
transform sequence of length N for every N (including 0) and leaves the
seed containers and the configured count untouched, as does a whole
per-frame Update step. -/
theorem pool_invariants (sampleCenter : ℕ → Vec3) (samplePhase : ℕ → ℝ)
    (s : SceneState) (t : ℝ) (e : ℝ) (vp : Mat4) :
    (InitInstanceData sampleCenter samplePhase s).instanceCenters.length =
      s.instanceCount ∧
    (InitInstanceData sampleCenter samplePhase s).instancePhases.length =
      s.instanceCount ∧
    (InitInstanceData sampleCenter samplePhase s).instanceCount =
      s.instanceCount ∧
    (GenerateInstanceData s t).instanceWorlds.length = s.instanceCount ∧
    (GenerateInstanceData s t).instanceCenters = s.instanceCenters ∧
    (GenerateInstanceData s t).instancePhases = s.instancePhases ∧
    (GenerateInstanceData s t).instanceCount = s.instanceCount ∧
    (Update e vp s).instanceCenters = s.instanceCenters ∧
    (Update e vp s).instancePhases = s.instancePhases ∧
    (Update e vp s).instanceCount = s.instanceCount := by
  simp [InitInstanceData, GenerateInstanceData, Update]

/-- One Update step adds the elapsed time to the accumulated clock. -/
lemma Update_pathTime (e : ℝ) (vp : Mat4) (s : SceneState) :
    (Update e vp s).pathTime = s.pathTime + e := by
  simp [Update, GenerateInstanceData]

/-- One Update step leaves the seed containers and the count untouched. -/
lemma Update_seeds (e : ℝ) (vp : Mat4) (s : SceneState) :
    (Update e vp s).instanceCount = s.instanceCount ∧
    (Update e vp s).instanceCenters = s.instanceCenters ∧
    (Update e vp s).instancePhases = s.instancePhases := by
  simp [Update, GenerateInstanceData]

/-- One Update step rebuilds the worlds from the advanced clock. -/
lemma Update_worlds (e : ℝ) (vp : Mat4) (s : SceneState) :
    (Update e vp s).instanceWorlds =
      (List.range s.instanceCount).map fun i =>
        instanceWorld (s.instanceCenters.getD i ⟨0, 0, 0⟩)
          (s.instancePhases.getD i 0) (s.pathTime + e) := by
  simp [Update, GenerateInstanceData]

/-- Unfolding of runUpdates over a cons cell. -/
lemma runUpdates_cons (f : ℝ × Mat4) (l : List (ℝ × Mat4)) (s : SceneState) :
    runUpdates (f :: l) s = runUpdates l (Update f.1 f.2 s) := rfl

/-- After any nonempty sequence of frames the instance worlds are exactly
the regeneration of the initial seeds at the summed clock: the transforms
are a function of the accumulated absolute time only, with no
frame-to-frame integration. -/
lemma runUpdates_worlds (l : List (ℝ × Mat4)) (s : SceneState) (hl : l ≠ []) :
    (runUpdates l s).instanceWorlds =
      (List.range s.instanceCount).map fun i =>
        instanceWorld (s.instanceCenters.getD i ⟨0, 0, 0⟩)
          (s.instancePhases.getD i 0)
          (s.pathTime + (l.map Prod.fst).sum) := by
  induction l generalizing s with
  | nil => exact absurd rfl hl
  | cons f rest ih =>
    rw [runUpdates_cons]
    cases rest with
    | nil =>
      simp only [runUpdates, List.foldl_nil, Update_worlds, List.map_cons,
        List.map_nil, List.sum_cons, List.sum_nil, add_zero]
    | cons g rest2 =>
      rw [ih (Update f.1 f.2 s) (by simp)]
      obtain ⟨hc, hcen, hph⟩ := Update_seeds f.1 f.2 s
      rw [hc, hcen, hph, Update_pathTime]
      simp only [List.map_cons, List.sum_cons]
      ring_nf

/-- C4: the transform computation is deterministic and free of hidden
mutable state: states agreeing on the seeds regenerate identical worlds
regardless of any other field, and any two nonempty frame sequences with
the same total elapsed time leave identical worlds (the transforms are
recomputed from the accumulated clock, never integrated frame to frame). -/
theorem transform_deterministic :
    (∀ s1 s2 : SceneState, s1.instanceCount = s2.instanceCount →
      s1.instanceCenters = s2.instanceCenters →
      s1.instancePhases = s2.instancePhases → ∀ t : ℝ,
      (GenerateInstanceData s1 t).instanceWorlds =
        (GenerateInstanceData s2 t).instanceWorlds) ∧
    (∀ (s : SceneState) (l1 l2 : List (ℝ × Mat4)), l1 ≠ [] → l2 ≠ [] →
      (l1.map Prod.fst).sum = (l2.map Prod.fst).sum →
      (runUpdates l1 s).instanceWorlds = (runUpdates l2 s).instanceWorlds) := by
  constructor
  · intro s1 s2 hc hcen hph t
    simp [GenerateInstanceData, hc, hcen, hph]
  · intro s l1 l2 h1 h2 hsum
    rw [runUpdates_worlds l1 s h1, runUpdates_worlds l2 s h2, hsum]

theorem transform_deterministic_witness :
    (runUpdates [((1 : ℝ), mat4Zero)] witnessState).instanceWorlds =
      (runUpdates [((0.5 : ℝ), mat4Zero), ((0.5 : ℝ), mat4Zero)]
        witnessState).instanceWorlds :=
  transform_deterministic.2 witnessState _ _ (by simp) (by simp) (by norm_num)

/-- Reading the draw-record list at an in-range index. -/
lemma DrawButterflies_getD (ic : ℕ) (s : SceneState) (i : ℕ)
    (h : i < s.instanceWorlds.length) :
    (DrawButterflies ic s).getD i drawRecordZero =
      ⟨⟨Mat4.mul (s.instanceWorlds.getD i mat4Zero) s.worldViewProj,
        wingAng s.pathTime⟩, ic⟩ := by
  rw [List.getD_eq_getElem _ _ (by simpa [DrawButterflies] using h),
    List.getD_eq_getElem _ _ h]
  simp [DrawButterflies]

/-- C5: every constant record written by the draw loop carries the shared
per-frame wing angle sin(t * 2 * pi * kWingFactor) * kWingAmp, and that
angle is bounded by kWingAmp in absolute value. -/
theorem wing_angle_shared (ic : ℕ) (s : SceneState) (i : ℕ)
    (h : i < (DrawButterflies ic s).length) :
    ((DrawButterflies ic s).getD i drawRecordZero).constants.WingAngle =
      Real.sin (s.pathTime * (2 * π) * kWingFactor) * kWingAmp ∧
    |((DrawButterflies ic s).getD i drawRecordZero).constants.WingAngle| ≤
      kWingAmp := by
  have h' : i < s.instanceWorlds.length := by simpa [DrawButterflies] using h
  rw [DrawButterflies_getD ic s i h']
  have e : s.pathTime * 2.0 * π * kWingFactor =
      s.pathTime * (2 * π) * kWingFactor := by ring
  constructor
  · simp only [wingAng, e]
  · have hb := Real.abs_sin_le_one (s.pathTime * 2.0 * π * kWingFactor)
    simp only [wingAng, abs_mul]
    rw [show |kWingAmp| = kWingAmp by norm_num [kWingAmp]]
    have hamp : (0 : ℝ) ≤ kWingAmp := by norm_num [kWingAmp]
    nlinarith [mul_le_mul_of_nonneg_right hb hamp]

/-- State with one already-generated world, used by the draw-loop
witnesses. -/
def drawState : SceneState :=
  { instanceCount := 1
    instanceCenters := [⟨0, 0, 0⟩]
    instancePhases := [0]
    instanceWorlds := [mat4Zero]
    pathTime := 0
    worldViewProj := mat4Zero }

theorem wing_angle_shared_witness :
    ((DrawButterflies 3 drawState).getD 0 drawRecordZero).constants.WingAngle =
      Real.sin (drawState.pathTime * (2 * π) * kWingFactor) * kWingAmp ∧
    |((DrawButterflies 3 drawState).getD 0 drawRecordZero).constants.WingAngle| ≤
      kWingAmp :=
  wing_angle_shared 3 drawState 0 (by simp [DrawButterflies, drawState])

/-- C6: the draw loop emits exactly one indexed draw per pool entry, in
pool order: the record at position i carries worldViewProj =
instanceWorlds[i] * worldViewProj and the shared wing angle and the fixed
mesh index count; after regeneration the number of instanced draws equals
the configured instance count. -/
theorem draw_loop_order (ic : ℕ) (s : SceneState) :
    (DrawButterflies ic s).length = s.instanceWorlds.length ∧
    (∀ t : ℝ,
      (DrawButterflies ic (GenerateInstanceData s t)).length = s.instanceCount) ∧
    ∀ i, i < s.instanceWorlds.length →
      ((DrawButterflies ic s).getD i drawRecordZero).constants.WorldViewProj =
        Mat4.mul (s.instanceWorlds.getD i mat4Zero) s.worldViewProj ∧
      ((DrawButterflies ic s).getD i drawRecordZero).constants.WingAngle =
        wingAng s.pathTime ∧
      ((DrawButterflies ic s).getD i drawRecordZero).numIndices = ic := by
  refine ⟨by simp [DrawButterflies], by simp [DrawButterflies, GenerateInstanceData], ?_⟩
  intro i h
  rw [DrawButterflies_getD ic s i h]
  exact ⟨rfl, rfl, rfl⟩

theorem draw_loop_order_witness :
    ((DrawButterflies 3 drawState).getD 0 drawRecordZero).constants.WorldViewProj =
      Mat4.mul (drawState.instanceWorlds.getD 0 mat4Zero)
        drawState.worldViewProj ∧
    ((DrawButterflies 3 drawState).getD 0 drawRecordZero).constants.WingAngle =
      wingAng drawState.pathTime ∧
    ((DrawButterflies 3 drawState).getD 0 drawRecordZero).numIndices = 3 :=
  (draw_loop_order 3 drawState).2.2 0 (by simp [drawState])

/-! The articulation vertex shader src/assets/cube.vsh. -/

/-- Wing hinge pivot offset (static const float PIVOT_X = 0.02f). -/
def PIVOT_X : ℝ := 0.02

/-- 4-component vector, mirroring HLSL float4. -/
structure Vec4 where
  x : ℝ
  y : ℝ
  z : ℝ
  w : ℝ

/-- HLSL mul(vector, matrix): the row vector times the row-major matrix. -/
def Vec4.vecMul (v : Vec4) (M : Mat4) : Vec4 :=
  ⟨v.x * M.m00 + v.y * M.m10 + v.z * M.m20 + v.w * M.m30,
   v.x * M.m01 + v.y * M.m11 + v.z * M.m21 + v.w * M.m31,
   v.x * M.m02 + v.y * M.m12 + v.z * M.m22 + v.w * M.m32,
   v.x * M.m03 + v.y * M.m13 + v.z * M.m23 + v.w * M.m33⟩

/-- Vertex shader input: position, texture coordinate and wing-side flag
(ATTRIB0 to ATTRIB2). -/
structure VSInput where
  Pos : Vec3
  TexCoord : ℝ × ℝ
  WingFlg : ℝ

/-- Vertex shader output: clip-space position and pass-through UV. -/
structure PSInput where
  Pos : Vec4
  UV : ℝ × ℝ

/-- The hinge branch of cube.vsh main: when abs(WingFlg) > 0.5 the vertex
is translated by -pivotX, rotated about the z axis by
g_WingAngle * WingFlg, and translated back; otherwise it is left alone. -/
noncomputable def wingDeform (pos : Vec3) (wingFlg wingAngle : ℝ) : Vec3 :=
  if 0.5 < |wingFlg| then
    let pivotX := PIVOT_X * wingFlg
    let px := pos.x - pivotX
    let rotAngle := wingAngle * wingFlg
    let sn := Real.sin rotAngle
    let cs := Real.cos rotAngle
    ⟨px * cs - pos.y * sn + pivotX, px * sn + pos.y * cs, pos.z⟩
  else pos

/-- cube.vsh main: deform the position by the wing hinge, then transform
by g_WorldViewProj; the UV passes through. -/
noncomputable def vsMain (IN : VSInput) (g_WorldViewProj : Mat4)
    (g_WingAngle : ℝ) : PSInput :=
  let p := wingDeform IN.Pos IN.WingFlg g_WingAngle
  { Pos := Vec4.vecMul ⟨p.x, p.y, p.z, 1⟩ g_WorldViewProj
    UV := IN.TexCoord }

/-- C10: a vertex is hinge-rotated only when abs(WingFlg) > 0.5 - any
vertex with abs(WingFlg) <= 0.5 is output as its input position
transformed by WorldViewProj alone; for articulated vertices the hinge
preserves the z coordinate and leaves the pivot point
(PIVOT_X * WingFlg, 0) fixed. -/
theorem shader_hinge (pos : Vec3) (uv : ℝ × ℝ) (flg angle : ℝ) (wvp : Mat4) :
    (|flg| ≤ 0.5 →
      vsMain ⟨pos, uv, flg⟩ wvp angle =
        { Pos := Vec4.vecMul ⟨pos.x, pos.y, pos.z, 1⟩ wvp, UV := uv }) ∧
    (0.5 < |flg| → (wingDeform pos flg angle).z = pos.z) ∧
    (0.5 < |flg| → ∀ z0 : ℝ,
      wingDeform ⟨PIVOT_X * flg, 0, z0⟩ flg angle = ⟨PIVOT_X * flg, 0, z0⟩) := by
  refine ⟨?_, ?_, ?_⟩
  · intro h
    simp [vsMain, wingDeform, not_lt.mpr h]
  · intro h
    simp [wingDeform, if_pos h]
  · intro h z0
    simp only [wingDeform, if_pos h, Vec3.mk.injEq]
    exact ⟨by ring, by ring, by trivial⟩

theorem shader_hinge_witness :
    (vsMain ⟨⟨1, 2, 3⟩, (0, 0), 0⟩ mat4Zero π =
      { Pos := Vec4.vecMul ⟨1, 2, 3, 1⟩ mat4Zero, UV := (0, 0) }) ∧
    (wingDeform ⟨1, 2, 3⟩ 1 π).z = (3 : ℝ) ∧
    wingDeform ⟨PIVOT_X * 1, 0, 5⟩ 1 π = ⟨PIVOT_X * 1, 0, 5⟩ :=
  ⟨(shader_hinge ⟨1, 2, 3⟩ (0, 0) 0 π mat4Zero).1 (by norm_num),
   (shader_hinge ⟨1, 2, 3⟩ (0, 0) 1 π mat4Zero).2.1 (by norm_num),
   (shader_hinge ⟨1, 2, 3⟩ (0, 0) 1 π mat4Zero).2.2 (by norm_num) 5⟩

/-! Event-level model of the constant channel inside the draw loops of
Tutorial03_Texturing.cpp, used to check the ordering of the MapHelper
acquisition, the constant write, the draw submission and the MapHelper
release. -/

/-- One observable event of the frame constant channel. -/
inductive ChannelEvent where
  | acquire : ChannelEvent
  | writeConsts : ℕ → ChannelEvent
  | drawCall : ℕ → ChannelEvent
  | release : ChannelEvent
deriving DecidableEq

/-- Whether an event is a draw submission. -/
def isDrawCall : ChannelEvent → Bool
  | .drawCall _ => true
  | _ => false

/-- Whether an event acquires the CPU-writable view. -/
def isAcquire : ChannelEvent → Bool
  | .acquire => true
  | _ => false

/-- Whether an event releases the CPU-writable view. -/
def isRelease : ChannelEvent → Bool
  | .release => true
  | _ => false

/-- Event trace of DrawButterflies for n instances, following the C++
block structure of the loop body: the MapHelper constructor acquires the
view, the constants are assigned, DrawIndexed is issued, and the
MapHelper destructor releases the view when the loop-iteration scope
ends - which is after the draw call. -/
def drawButterfliesEvents (n : ℕ) : List ChannelEvent :=
  (List.range n).flatMap fun i =>
    [ChannelEvent.acquire, ChannelEvent.writeConsts i,
     ChannelEvent.drawCall i, ChannelEvent.release]

/-- Number of views still held just before trace position k. -/
def openViewsBefore (tr : List ChannelEvent) (k : ℕ) : ℕ :=
  ((tr.take k).filter isAcquire).length - ((tr.take k).filter isRelease).length

/-- The spec's contract for the channel: whenever a draw is issued, every
previously acquired CPU-writable view has already been released. -/
def releaseBeforeEveryDraw (tr : List ChannelEvent) : Prop :=
  ∀ k, k < tr.length → isDrawCall (tr.getD k ChannelEvent.release) = true →
    openViewsBefore tr k = 0

instance releaseBeforeEveryDraw.instDecidable (tr : List ChannelEvent) :
    Decidable (releaseBeforeEveryDraw tr) := by
  unfold releaseBeforeEveryDraw
  infer_instance

/-- C2: the code violates the release-before-draw contract: already with a
single instance, the draw for instance 0 sits at trace position 2 while
the view acquired at position 0 is released only at position 3, so one
mapped view is still held when DrawIndexed executes. -/
theorem mapped_view_held_at_draw :
    ¬ releaseBeforeEveryDraw (drawButterfliesEvents 1) ∧
    (drawButterfliesEvents 1).getD 2 ChannelEvent.release =
      ChannelEvent.drawCall 0 ∧
    openViewsBefore (drawButterfliesEvents 1) 2 = 1 := by
  decide

end Butterflies
